import Mathlib

/-!
Verification of the DID Rotate protocol manager
(`aries_cloudagent/protocols/did_rotate/v1_0/manager.py`) and of the
out-of-band problem-report schema validation
(`aries_cloudagent/protocols/out_of_band/v1_0/messages/problem_report.py`).

The Python manager performs asynchronous calls to external collaborators
(DID resolver, connection manager, responder, storage).  We embed each
manager operation as a pure function that receives the outcome of every
fallible collaborator call as an explicit argument, and returns

* the result (`Except DIDRotateManagerError _`, modelling raised exceptions),
* the final contents of the mutable Python objects passed in
  (`ConnRecord`, `RotateRecord`) - mutations performed before a raise are
  visible, exactly as in Python,
* an ordered log of the side effects performed before the function
  returned or raised (collaborator invocations, message sends, saves).
-/

namespace DIDRotate

/-- Connection record, restricted to the fields the manager touches:
`connection_id` and `their_did`. -/
structure ConnRecord where
  connection_id : String
  their_did : Option String
deriving DecidableEq, Repr

/-- Role constants of `RotateRecord` (`ROLE_ROTATING`, `ROLE_OBSERVING`). -/
inductive RotateRole
  | rotating
  | observing
deriving DecidableEq, Repr

/-- State constants of `RotateRecord` (`STATE_ROTATE_SENT`,
`STATE_ROTATE_RECEIVED`, `STATE_ACK_SENT`). -/
inductive RotateState
  | rotateSent
  | rotateReceived
  | ackSent
deriving DecidableEq, Repr

/-- Rotation record, restricted to the fields the manager reads and writes.
`new_did` and `thread_id` are `Option String` because the underlying Python
attributes default to `None`. -/
structure RotateRecord where
  role : RotateRole
  state : RotateState
  connection_id : String
  new_did : Option String
  thread_id : Option String
deriving DecidableEq, Repr

/-- Python truthiness test `not record.new_did`: true for `None` and `""`. -/
def strFalsy : Option String → Bool
  | none => true
  | some s => s == ""

/-- Modelled from the spec: the problem-report reason codes of the DID
Rotate protocol (the `messages` module defining `RotateProblemReport` is not
part of the given source).  Spec section 3: code is one of
`DID_UNRESOLVABLE`, `DID_METHOD_UNSUPPORTED`. -/
inductive RotateReportCode
  | didUnresolvable
  | didMethodUnsupported
deriving DecidableEq, Repr

/-- Modelled from the spec: a `RotateProblemReport` payload carries a reason
code and refers to the offending DID. -/
structure RotateProblemReport where
  code : RotateReportCode
  did : String
deriving DecidableEq, Repr

/-- Modelled from the spec: `RotateProblemReport.unresolvable(did)` builds a
report with code `DID_UNRESOLVABLE`. -/
def RotateProblemReport.unresolvable (did : String) : RotateProblemReport :=
  { code := RotateReportCode.didUnresolvable, did := did }

/-- Modelled from the spec: `RotateProblemReport.method_unsupported(did)`
builds a report with code `DID_METHOD_UNSUPPORTED`. -/
def RotateProblemReport.method_unsupported (did : String) : RotateProblemReport :=
  { code := RotateReportCode.didMethodUnsupported, did := did }

/-- The `Rotate` message: `to_did` plus the generated message id
(`_message_id`).  Id generation is external randomness, so the id is a
parameter of the embedding. -/
structure Rotate where
  to_did : String
  message_id : String
deriving DecidableEq, Repr

/-- The `RotateAck` message; `assign_thread_id` stores the thread id. -/
structure RotateAck where
  thread_id : Option String
deriving DecidableEq, Repr

/-- A message handed to the responder. -/
inductive Message
  | rotate (r : Rotate)
  | rotateAck (a : RotateAck)
  | problemReport (p : RotateProblemReport)
deriving DecidableEq, Repr

/-- The error taxonomy of the manager:
`managerError` is a plain `DIDRotateManagerError`;
`unresolvableDID` and `unsupportedDIDMethod` are the two
`ReportableDIDRotateError` subclasses, carrying their problem report;
`valueError` models the `ValueError` raised on a missing new DID. -/
inductive DIDRotateManagerError
  | managerError (msg : String)
  | unresolvableDID (report : RotateProblemReport)
  | unsupportedDIDMethod (report : RotateProblemReport)
  | valueError (msg : String)
deriving DecidableEq, Repr

/-- `err.message` of a `ReportableDIDRotateError`, `none` when the error is
not reportable (the `except ReportableDIDRotateError` test). -/
def reportOf : DIDRotateManagerError → Option RotateProblemReport
  | DIDRotateManagerError.unresolvableDID r => some r
  | DIDRotateManagerError.unsupportedDIDMethod r => some r
  | _ => none

/-- One observable side effect of a manager operation, in program order:
collaborator invocations, responder sends (with the target connection id)
and saves (with their reason; `saveConn` also records the `event` flag). -/
inductive Effect
  | resolveCall (did : String)
  | resolveServicesCall (did : String)
  | recordKeysCall (did : String)
  | send (msg : Message) (connection_id : String)
  | saveRecord (record : RotateRecord) (reason : String)
  | saveConn (conn : ConnRecord) (reason : String) (event : Bool)
deriving DecidableEq, Repr

/-- The messages sent by an effect trace, in order, with their target
connection ids. -/
def sentMessages : List Effect → List (Message × String)
  | [] => []
  | Effect.send m c :: fx => (m, c) :: sentMessages fx
  | _ :: fx => sentMessages fx

/-- The rotate records saved by an effect trace, in order. -/
def savedRecords : List Effect → List RotateRecord
  | [] => []
  | Effect.saveRecord r _ :: fx => r :: savedRecords fx
  | _ :: fx => savedRecords fx

/-- The connection saves of an effect trace: saved record and event flag. -/
def savedConns : List Effect → List (ConnRecord × Bool)
  | [] => []
  | Effect.saveConn c _ e :: fx => (c, e) :: savedConns fx
  | _ :: fx => savedConns fx

/-- Outcome of `DIDResolver.resolve`. -/
inductive ResolveOutcome
  | resolved
  | methodNotSupported
  | notFound
deriving DecidableEq, Repr

/-- Outcome of a `BaseConnectionManager` call
(`resolve_didcomm_services` / `record_keys_for_resolvable_did`):
success, or a raised `BaseConnectionManagerError`. -/
inductive CollabOutcome
  | success
  | failure
deriving DecidableEq, Repr

/-- `DIDRotateManager.rotate_my_did`: build the ROTATING record, build the
`Rotate` message, set the record's thread id to the message id, send the
message, then save the record.  `msg_id` is the generated `_message_id`.
Returns the record together with the effect trace. -/
def rotate_my_did (conn : ConnRecord) (new_did : String) (msg_id : String) :
    RotateRecord × List Effect :=
  let rotate : Rotate := { to_did := new_did, message_id := msg_id }
  let record : RotateRecord :=
    { role := RotateRole.rotating
      state := RotateState.rotateSent
      connection_id := conn.connection_id
      new_did := some new_did
      thread_id := some rotate.message_id }
  (record,
    [Effect.send (Message.rotate rotate) conn.connection_id,
     Effect.saveRecord record "Sent rotate message"])

/-- `DIDRotateManager.ensure_supported_did`: resolve the DID (method not
supported and not found raise the two reportable errors), then resolve
DIDComm services (failure raises a plain, non-reportable
`DIDRotateManagerError`).  Returns the result and the collaborator-call
trace. -/
def ensure_supported_did (did : String) (resolve : ResolveOutcome)
    (services : CollabOutcome) :
    Except DIDRotateManagerError Unit × List Effect :=
  match resolve with
  | ResolveOutcome.methodNotSupported =>
    (Except.error (DIDRotateManagerError.unsupportedDIDMethod
        (RotateProblemReport.method_unsupported did)),
     [Effect.resolveCall did])
  | ResolveOutcome.notFound =>
    (Except.error (DIDRotateManagerError.unresolvableDID
        (RotateProblemReport.unresolvable did)),
     [Effect.resolveCall did])
  | ResolveOutcome.resolved =>
    match services with
    | CollabOutcome.failure =>
      (Except.error (DIDRotateManagerError.managerError
          "Unable to resolve DIDComm services for DID"),
       [Effect.resolveCall did, Effect.resolveServicesCall did])
    | CollabOutcome.success =>
      (Except.ok (), [Effect.resolveCall did, Effect.resolveServicesCall did])

/-- `DIDRotateManager.receive_rotate`: build the OBSERVING record, run
`ensure_supported_did`; a reportable error is caught and its problem report
sent; then (also after a caught reportable error, but not after a
propagated one) the record is saved.  Returns the result, the record as
built, and the effect trace. -/
def receive_rotate (conn : ConnRecord) (rotate : Rotate)
    (resolve : ResolveOutcome) (services : CollabOutcome) :
    Except DIDRotateManagerError Unit × RotateRecord × List Effect :=
  let record : RotateRecord :=
    { role := RotateRole.observing
      state := RotateState.rotateReceived
      connection_id := conn.connection_id
      new_did := some rotate.to_did
      thread_id := some rotate.message_id }
  let checked := ensure_supported_did rotate.to_did resolve services
  match checked.1 with
  | Except.ok _ =>
    (Except.ok (), record,
      checked.2 ++ [Effect.saveRecord record "Received rotate message"])
  | Except.error e =>
    match reportOf e with
    | some report =>
      (Except.ok (), record,
        checked.2 ++
          [Effect.send (Message.problemReport report) conn.connection_id,
           Effect.saveRecord record "Received rotate message"])
    | none => (Except.error e, record, checked.2)

/-- `DIDRotateManager.commit_rotate`: set the record state to `ACK_SENT`
(this in-place mutation happens first, before any check), raise
`ValueError` if the record has no new DID, call
`record_keys_for_resolvable_did` (failure raises a plain
`DIDRotateManagerError`), set `conn.their_did`, send the `RotateAck` with
the record's thread id, save the connection with `event=False`, save the
record.  Returns the result, the final connection and record contents, and
the effect trace. -/
def commit_rotate (conn : ConnRecord) (record : RotateRecord)
    (recordKeys : CollabOutcome) :
    Except DIDRotateManagerError Unit × ConnRecord × RotateRecord × List Effect :=
  let record := { record with state := RotateState.ackSent }
  if strFalsy record.new_did then
    (Except.error (DIDRotateManagerError.valueError "No new DID stored in record"),
     conn, record, [])
  else
    match recordKeys with
    | CollabOutcome.failure =>
      (Except.error (DIDRotateManagerError.managerError
          "Unable to record keys for resolvable DID"),
       conn, record, [Effect.recordKeysCall (record.new_did.getD "")])
    | CollabOutcome.success =>
      let conn := { conn with their_did := record.new_did }
      let ack : RotateAck := { thread_id := record.thread_id }
      (Except.ok (), conn, record,
        [Effect.recordKeysCall (record.new_did.getD ""),
         Effect.send (Message.rotateAck ack) conn.connection_id,
         Effect.saveConn conn "Their DID rotated" false,
         Effect.saveRecord record "Sent rotate ack"])

end DIDRotate

namespace OOB

/-- The two values of the `ProblemReportReason` enum. -/
def problemReportReasonValues : List String :=
  ["no_existing_connection", "existing_connection_not_active"]

/-- Outcome of `OOBProblemReportSchema.validate_fields`:
a raised `ValidationError`, an unguarded `IndexError` (from `locales[0]` on
an empty list), acceptance, or acceptance after logging the unknown-code
warning (recording the code and the description text the warning prints). -/
inductive ValidateOutcome
  | validationError (msg : String)
  | indexError
  | accepted
  | acceptedWithWarning (code : String) (description : Option String)
deriving DecidableEq, Repr

/-- Python `dict.get` on the description map, modelled over an association
list (first binding wins, as dict keys are unique). -/
def getKey (m : List (String × String)) (k : String) : Option String :=
  (m.find? fun p => p.1 == k).map Prod.snd

/-- `OOBProblemReportSchema.validate_fields` over the `description` entry of
the deserialized data (`none` when `data` has no `description` key):
an absent or empty `description.code` raises a `ValidationError`; a code
outside `ProblemReportReason` takes the warning branch, which builds
`locales = list(description.keys())`, removes `"code"`, and reads
`locales[0]` - an `IndexError` when no key remains; a known code is
accepted silently. -/
def validate_fields (description : Option (List (String × String))) :
    ValidateOutcome :=
  let desc := description.getD []
  let code := (getKey desc "code").getD ""
  if code = "" then
    ValidateOutcome.validationError "Value for description.code must be present"
  else if code ∈ problemReportReasonValues then
    ValidateOutcome.accepted
  else
    match (desc.map Prod.fst).erase "code" with
    | [] => ValidateOutcome.indexError
    | l :: _ => ValidateOutcome.acceptedWithWarning code (getKey desc l)

end OOB

namespace DIDRotate

/-- Claim C1: if the key-recording/service-discovery step inside
`commit_rotate` fails, the operation raises a non-reportable error
(a plain `DIDRotateManagerError`, carrying no problem report), the
connection - in particular its `their_did` - is unchanged, and no message
(hence no `RotateAck`) is sent. -/
theorem commit_rotate_keys_failure_preserves_their_did
    (conn : ConnRecord) (record : RotateRecord)
    (h : strFalsy record.new_did = false) :
    (commit_rotate conn record CollabOutcome.failure).1 =
      Except.error (DIDRotateManagerError.managerError
        "Unable to record keys for resolvable DID") ∧
    reportOf (DIDRotateManagerError.managerError
        "Unable to record keys for resolvable DID") = none ∧
    (commit_rotate conn record CollabOutcome.failure).2.1 = conn ∧
    sentMessages (commit_rotate conn record CollabOutcome.failure).2.2.2 = [] := by
  simp [commit_rotate, h, reportOf, sentMessages]

/-- Witness for C1 at a concrete connection and record. -/
theorem commit_rotate_keys_failure_preserves_their_did_witness :
    (commit_rotate { connection_id := "c1", their_did := some "did:old" }
        { role := RotateRole.observing, state := RotateState.rotateReceived,
          connection_id := "c1", new_did := some "did:new", thread_id := some "t1" }
        CollabOutcome.failure).2.1 =
      { connection_id := "c1", their_did := some "did:old" } :=
  (commit_rotate_keys_failure_preserves_their_did
    { connection_id := "c1", their_did := some "did:old" }
    { role := RotateRole.observing, state := RotateState.rotateReceived,
      connection_id := "c1", new_did := some "did:new", thread_id := some "t1" }
    (by decide)).2.2.1

/-- Claim C2: when the record has a non-falsy new DID and the collaborator
calls succeed, `commit_rotate` succeeds, the connection's `their_did`
equals `record.new_did`, the record's state is `ACK_SENT`, and exactly one
message was sent: a `RotateAck` carrying `record.thread_id`. -/
theorem commit_rotate_success_updates_did_and_acks
    (conn : ConnRecord) (record : RotateRecord)
    (h : strFalsy record.new_did = false) :
    (commit_rotate conn record CollabOutcome.success).1 = Except.ok () ∧
    (commit_rotate conn record CollabOutcome.success).2.1.their_did =
      record.new_did ∧
    (commit_rotate conn record CollabOutcome.success).2.2.1 =
      { record with state := RotateState.ackSent } ∧
    sentMessages (commit_rotate conn record CollabOutcome.success).2.2.2 =
      [(Message.rotateAck { thread_id := record.thread_id },
        conn.connection_id)] := by
  simp [commit_rotate, h, sentMessages]

/-- Witness for C2 at a concrete connection and record. -/
theorem commit_rotate_success_updates_did_and_acks_witness :
    (commit_rotate { connection_id := "c1", their_did := some "did:old" }
        { role := RotateRole.observing, state := RotateState.rotateReceived,
          connection_id := "c1", new_did := some "did:new", thread_id := some "t1" }
        CollabOutcome.success).2.1.their_did = some "did:new" :=
  (commit_rotate_success_updates_did_and_acks
    { connection_id := "c1", their_did := some "did:old" }
    { role := RotateRole.observing, state := RotateState.rotateReceived,
      connection_id := "c1", new_did := some "did:new", thread_id := some "t1" }
    (by decide)).2.1

/-- Counterexample to claim C3: on a key-recording failure the operation
raises, yet the in-memory record's state has already been set to
`ACK_SENT` - `commit_rotate` assigns the state on its first line, before
the checks, contradicting the claim that on an earlier step's failure the
record's state has not been set to `ACK_SENT`. -/
theorem commit_rotate_state_set_early_cex :
    (commit_rotate { connection_id := "c1", their_did := some "did:old" }
        { role := RotateRole.observing, state := RotateState.rotateReceived,
          connection_id := "c1", new_did := some "did:new", thread_id := some "t1" }
        CollabOutcome.failure).1 =
      Except.error (DIDRotateManagerError.managerError
        "Unable to record keys for resolvable DID") ∧
    (commit_rotate { connection_id := "c1", their_did := some "did:old" }
        { role := RotateRole.observing, state := RotateState.rotateReceived,
          connection_id := "c1", new_did := some "did:new", thread_id := some "t1" }
        CollabOutcome.failure).2.2.1.state = RotateState.ackSent := by
  constructor
  · simp [commit_rotate, strFalsy]
  · simp [commit_rotate, strFalsy]

/-- Claim C3 (amended): on the success path the effects happen in the order
key-recording call, `RotateAck` send, connection save (with the updated
peer DID), record save (with state `ACK_SENT`); on a key-recording failure
only the key-recording call happened - nothing is sent or persisted - but
the in-memory record's state has already been assigned `ACK_SENT`: the
`ACK_SENT` transition is only PERSISTED at the final step, while the
in-memory assignment happens first.  The record `bad` covers the other
early failure: with a falsy (absent or empty) new DID, `commit_rotate`
raises the `ValueError` whatever the collaborator would do, its effect
trace is empty - nothing sent, nothing persisted, the key-recording
collaborator not even called - and the in-memory record's state has again
already been assigned `ACK_SENT`, since that assignment precedes the
new-DID check. -/
theorem commit_rotate_step_order
    (conn : ConnRecord) (record bad : RotateRecord)
    (h : strFalsy record.new_did = false)
    (hb : strFalsy bad.new_did = true) :
    (commit_rotate conn record CollabOutcome.success).2.2.2 =
      [Effect.recordKeysCall (record.new_did.getD ""),
       Effect.send (Message.rotateAck { thread_id := record.thread_id })
         conn.connection_id,
       Effect.saveConn { conn with their_did := record.new_did }
         "Their DID rotated" false,
       Effect.saveRecord { record with state := RotateState.ackSent }
         "Sent rotate ack"] ∧
    (commit_rotate conn record CollabOutcome.failure).2.2.2 =
      [Effect.recordKeysCall (record.new_did.getD "")] ∧
    (commit_rotate conn record CollabOutcome.failure).2.2.1.state =
      RotateState.ackSent ∧
    (∀ keys : CollabOutcome,
      (commit_rotate conn bad keys).1 =
        Except.error (DIDRotateManagerError.valueError
          "No new DID stored in record") ∧
      (commit_rotate conn bad keys).2.2.2 = [] ∧
      (commit_rotate conn bad keys).2.2.1.state = RotateState.ackSent) := by
  simp [commit_rotate, h, hb]

/-- Witness for the amended C3 at a concrete connection and two concrete
records, one with a new DID and one without. -/
theorem commit_rotate_step_order_witness :
    (commit_rotate { connection_id := "c1", their_did := some "did:old" }
        { role := RotateRole.observing, state := RotateState.rotateReceived,
          connection_id := "c1", new_did := some "did:new", thread_id := some "t1" }
        CollabOutcome.failure).2.2.2 =
      [Effect.recordKeysCall "did:new"] ∧
    (commit_rotate { connection_id := "c1", their_did := some "did:old" }
        { role := RotateRole.observing, state := RotateState.rotateReceived,
          connection_id := "c1", new_did := none, thread_id := some "t1" }
        CollabOutcome.failure).2.2.2 = [] :=
  ⟨(commit_rotate_step_order
      { connection_id := "c1", their_did := some "did:old" }
      { role := RotateRole.observing, state := RotateState.rotateReceived,
        connection_id := "c1", new_did := some "did:new", thread_id := some "t1" }
      { role := RotateRole.observing, state := RotateState.rotateReceived,
        connection_id := "c1", new_did := none, thread_id := some "t1" }
      (by decide) (by decide)).2.1,
   ((commit_rotate_step_order
      { connection_id := "c1", their_did := some "did:old" }
      { role := RotateRole.observing, state := RotateState.rotateReceived,
        connection_id := "c1", new_did := some "did:new", thread_id := some "t1" }
      { role := RotateRole.observing, state := RotateState.rotateReceived,
        connection_id := "c1", new_did := none, thread_id := some "t1" }
      (by decide) (by decide)).2.2.2 CollabOutcome.failure).2.1⟩

/-- Claim C4: on a reportable validation failure (DID not found or DID
method unsupported), `receive_rotate` does not propagate the error, sends
exactly the problem report carried by the error (code `DID_UNRESOLVABLE`
resp. `DID_METHOD_UNSUPPORTED`) to the originating connection, and still
saves a record with role `OBSERVING` and state `ROTATE_RECEIVED`. -/
theorem receive_rotate_reportable_sends_report_and_persists
    (conn : ConnRecord) (rotate : Rotate) (services : CollabOutcome) :
    ((receive_rotate conn rotate ResolveOutcome.notFound services).1 =
        Except.ok () ∧
      sentMessages
          (receive_rotate conn rotate ResolveOutcome.notFound services).2.2 =
        [(Message.problemReport
            { code := RotateReportCode.didUnresolvable, did := rotate.to_did },
          conn.connection_id)] ∧
      savedRecords
          (receive_rotate conn rotate ResolveOutcome.notFound services).2.2 =
        [{ role := RotateRole.observing, state := RotateState.rotateReceived,
           connection_id := conn.connection_id, new_did := some rotate.to_did,
           thread_id := some rotate.message_id }]) ∧
    ((receive_rotate conn rotate ResolveOutcome.methodNotSupported services).1 =
        Except.ok () ∧
      sentMessages
          (receive_rotate conn rotate
            ResolveOutcome.methodNotSupported services).2.2 =
        [(Message.problemReport
            { code := RotateReportCode.didMethodUnsupported,
              did := rotate.to_did },
          conn.connection_id)] ∧
      savedRecords
          (receive_rotate conn rotate
            ResolveOutcome.methodNotSupported services).2.2 =
        [{ role := RotateRole.observing, state := RotateState.rotateReceived,
           connection_id := conn.connection_id, new_did := some rotate.to_did,
           thread_id := some rotate.message_id }]) := by
  refine ⟨⟨rfl, rfl, rfl⟩, ⟨rfl, rfl, rfl⟩⟩

/-- Claim C5: `ensure_supported_did` checks in a fixed order.  A
method-not-supported resolution failure raises the reportable
`UnsupportedDIDMethodError` carrying a method-unsupported report, a
not-found failure raises the reportable `UnresolvableDIDError` carrying an
unresolvable report, and in both cases the effect trace holds only the
resolver call - service discovery was never invoked.  Only after a
successful resolution is service discovery run, and its failure raises a
plain error with no problem report attached. -/
theorem ensure_supported_did_two_stage (did : String) (services : CollabOutcome) :
    (ensure_supported_did did ResolveOutcome.methodNotSupported services =
      (Except.error (DIDRotateManagerError.unsupportedDIDMethod
          { code := RotateReportCode.didMethodUnsupported, did := did }),
       [Effect.resolveCall did])) ∧
    reportOf (DIDRotateManagerError.unsupportedDIDMethod
        { code := RotateReportCode.didMethodUnsupported, did := did }) =
      some { code := RotateReportCode.didMethodUnsupported, did := did } ∧
    (ensure_supported_did did ResolveOutcome.notFound services =
      (Except.error (DIDRotateManagerError.unresolvableDID
          { code := RotateReportCode.didUnresolvable, did := did }),
       [Effect.resolveCall did])) ∧
    reportOf (DIDRotateManagerError.unresolvableDID
        { code := RotateReportCode.didUnresolvable, did := did }) =
      some { code := RotateReportCode.didUnresolvable, did := did } ∧
    (ensure_supported_did did ResolveOutcome.resolved CollabOutcome.failure =
      (Except.error (DIDRotateManagerError.managerError
          "Unable to resolve DIDComm services for DID"),
       [Effect.resolveCall did, Effect.resolveServicesCall did])) ∧
    reportOf (DIDRotateManagerError.managerError
        "Unable to resolve DIDComm services for DID") = none ∧
    (ensure_supported_did did ResolveOutcome.resolved CollabOutcome.success =
      (Except.ok (), [Effect.resolveCall did, Effect.resolveServicesCall did])) := by
  refine ⟨rfl, rfl, rfl, rfl, rfl, rfl, rfl⟩

/-- Claim C6: `rotate_my_did` creates exactly one record, with role
`ROTATING`, state `ROTATE_SENT`, the connection's id, the given new DID,
and thread id equal to the sent message's id; the effect trace is exactly
one send of a `Rotate` message with `to_did = new_did` followed by the save
of that record - so the record is persisted after the send. -/
theorem rotate_my_did_one_record_one_send
    (conn : ConnRecord) (new_did msg_id : String) :
    (rotate_my_did conn new_did msg_id).1 =
      { role := RotateRole.rotating, state := RotateState.rotateSent,
        connection_id := conn.connection_id, new_did := some new_did,
        thread_id := some msg_id } ∧
    (rotate_my_did conn new_did msg_id).2 =
      [Effect.send (Message.rotate { to_did := new_did, message_id := msg_id })
         conn.connection_id,
       Effect.saveRecord
         { role := RotateRole.rotating, state := RotateState.rotateSent,
           connection_id := conn.connection_id, new_did := some new_did,
           thread_id := some msg_id }
         "Sent rotate message"] ∧
    sentMessages (rotate_my_did conn new_did msg_id).2 =
      [(Message.rotate { to_did := new_did, message_id := msg_id },
        conn.connection_id)] ∧
    savedRecords (rotate_my_did conn new_did msg_id).2 =
      [(rotate_my_did conn new_did msg_id).1] := by
  refine ⟨rfl, rfl, rfl, rfl⟩

/-- Claim C8: the connection save performed by a successful `commit_rotate`
is the only connection save on the trace, stores the updated peer DID, and
carries `event = false`, suppressing the generic connection-changed
notification. -/
theorem commit_rotate_conn_save_suppresses_event
    (conn : ConnRecord) (record : RotateRecord)
    (h : strFalsy record.new_did = false) :
    savedConns (commit_rotate conn record CollabOutcome.success).2.2.2 =
      [({ conn with their_did := record.new_did }, false)] := by
  simp [commit_rotate, h, savedConns]

/-- Witness for C8 at a concrete connection and record. -/
theorem commit_rotate_conn_save_suppresses_event_witness :
    savedConns (commit_rotate { connection_id := "c1", their_did := some "did:old" }
        { role := RotateRole.observing, state := RotateState.rotateReceived,
          connection_id := "c1", new_did := some "did:new", thread_id := some "t1" }
        CollabOutcome.success).2.2.2 =
      [({ connection_id := "c1", their_did := some "did:new" }, false)] :=
  commit_rotate_conn_save_suppresses_event
    { connection_id := "c1", their_did := some "did:old" }
    { role := RotateRole.observing, state := RotateState.rotateReceived,
      connection_id := "c1", new_did := some "did:new", thread_id := some "t1" }
    (by decide)

/-- Claim C9: on a non-reportable validation failure (service-discovery
failure after a successful resolution), `receive_rotate` propagates the
error to the caller, sends no message, and saves no record. -/
theorem receive_rotate_nonreportable_propagates
    (conn : ConnRecord) (rotate : Rotate) :
    (receive_rotate conn rotate ResolveOutcome.resolved CollabOutcome.failure).1 =
      Except.error (DIDRotateManagerError.managerError
        "Unable to resolve DIDComm services for DID") ∧
    sentMessages
        (receive_rotate conn rotate ResolveOutcome.resolved
          CollabOutcome.failure).2.2 = [] ∧
    savedRecords
        (receive_rotate conn rotate ResolveOutcome.resolved
          CollabOutcome.failure).2.2 = [] := by
  refine ⟨rfl, rfl, rfl⟩

end DIDRotate

namespace OOB

/-- Counterexample to claim C7: a problem report whose description lacks
`code` is not accepted - `validate_fields` rejects it with a
`ValidationError`, against the claim that validation accepts a report
missing `description.code`. -/
theorem validate_fields_missing_code_rejected_cex :
    validate_fields (some [("en", "No connection")]) =
      ValidateOutcome.validationError
        "Value for description.code must be present" := by
  rfl

/-- Claim C7 (amended): validation is lenient only for unrecognized codes.
A report whose description lacks a `code` field (or has it empty) is
rejected with a `ValidationError`; a report with a non-empty code outside
the enumerated reason codes and at least one further description key is
accepted, with the anomaly logged as a warning. -/
theorem validate_fields_missing_vs_unknown_code
    (d1 d2 : List (String × String)) (c l : String) (ls : List String)
    (h1 : getKey d1 "code" = none ∨ getKey d1 "code" = some "")
    (h2 : getKey d2 "code" = some c) (hc : c ≠ "")
    (hr : c ∉ problemReportReasonValues)
    (hl : (d2.map Prod.fst).erase "code" = l :: ls) :
    validate_fields (some d1) =
      ValidateOutcome.validationError
        "Value for description.code must be present" ∧
    validate_fields (some d2) =
      ValidateOutcome.acceptedWithWarning c (getKey d2 l) := by
  constructor
  · rcases h1 with h1 | h1 <;> simp [validate_fields, h1]
  · simp [validate_fields, h2, hc, hr, hl]

/-- Witness for the amended C7 at concrete descriptions. -/
theorem validate_fields_missing_vs_unknown_code_witness :
    validate_fields (some [("en", "oops")]) =
      ValidateOutcome.validationError
        "Value for description.code must be present" ∧
    validate_fields (some [("code", "future_code"), ("en", "oops")]) =
      ValidateOutcome.acceptedWithWarning "future_code" (some "oops") :=
  validate_fields_missing_vs_unknown_code
    [("en", "oops")] [("code", "future_code"), ("en", "oops")]
    "future_code" "en" []
    (Or.inl (by decide)) (by decide) (by decide) (by decide) (by decide)

/-- Claim C10: in the unknown-code branch of `validate_fields`, when the
description carries at least one key besides `code` the branch completes
with the warning (reading the first remaining locale's text); when `code`
is the only key, the key list minus `code` is empty and indexing its first
element raises an unguarded `IndexError`. -/
theorem validate_fields_unknown_code_warning_or_index_error
    (d1 d2 : List (String × String)) (c1 c2 l : String) (ls : List String)
    (h1 : getKey d1 "code" = some c1) (hc1 : c1 ≠ "")
    (hr1 : c1 ∉ problemReportReasonValues)
    (hk1 : (d1.map Prod.fst).erase "code" = l :: ls)
    (h2 : getKey d2 "code" = some c2) (hc2 : c2 ≠ "")
    (hr2 : c2 ∉ problemReportReasonValues)
    (hk2 : d2.map Prod.fst = ["code"]) :
    validate_fields (some d1) =
      ValidateOutcome.acceptedWithWarning c1 (getKey d1 l) ∧
    validate_fields (some d2) = ValidateOutcome.indexError := by
  constructor
  · simp [validate_fields, h1, hc1, hr1, hk1]
  · simp [validate_fields, h2, hc2, hr2, hk2]

/-- Witness for C10 at concrete descriptions. -/
theorem validate_fields_unknown_code_warning_or_index_error_witness :
    validate_fields (some [("code", "future_code"), ("fr", "zut")]) =
      ValidateOutcome.acceptedWithWarning "future_code" (some "zut") ∧
    validate_fields (some [("code", "future_code")]) =
      ValidateOutcome.indexError :=
  validate_fields_unknown_code_warning_or_index_error
    [("code", "future_code"), ("fr", "zut")] [("code", "future_code")]
    "future_code" "future_code" "fr" []
    (by decide) (by decide) (by decide) (by decide)
    (by decide) (by decide) (by decide) (by decide)

end OOB
